import Mathlib

/-!
Shallow embedding of the `remotewrite` Go package
(`remotewrite.go`), together with theorems about its conversion and
delivery pipeline.

The data model mirrors the protobuf messages the code reads and writes:

* `LabelPair`, `Counter`, `Gauge`, `Untyped`, `Summary`, `Histogram`,
  `Metric`, `MetricFamily` embed the `io_prometheus_client` messages.
  Proto2 optional fields are `Option`s and the Go getters (which return
  zero values on `nil`) are embedded as `get…` functions.  Fields the
  program never reads (help text, summary quantiles, histogram buckets,
  metric timestamps, …) are omitted.
* `Label`, `Sample`, `TimeSeries`, `WriteRequest` embed the `prompb`
  messages the builder produces.

Go's `log.Fatalf` terminates the process, so a computation that may hit
it is embedded with result type `Option _`, `none` meaning fatal
termination.  External collaborators (`proto.Marshal`, `snappy.Encode`,
`http.NewRequest` URL validation, the network round trip, the gatherer)
are parameters of the functions that call them.
-/

/-- `io_prometheus_client.LabelPair`: proto2 optional name/value strings. -/
structure LabelPair where
  name : Option String
  value : Option String

/-- Go getter `LabelPair.GetName`: empty string when unset. -/
def LabelPair.getName (lp : LabelPair) : String := lp.name.getD ""

/-- Go getter `LabelPair.GetValue`: empty string when unset. -/
def LabelPair.getValue (lp : LabelPair) : String := lp.value.getD ""

/-- `io_prometheus_client.Counter` (only the field the program reads). -/
structure Counter where
  value : Option Float

/-- `io_prometheus_client.Gauge`. -/
structure Gauge where
  value : Option Float

/-- `io_prometheus_client.Untyped`. -/
structure Untyped where
  value : Option Float

/-- `io_prometheus_client.Summary` (only `sample_sum` is read). -/
structure Summary where
  sampleSum : Option Float

/-- `io_prometheus_client.Histogram` (only `sample_sum` is read). -/
structure Histogram where
  sampleSum : Option Float

/-- `io_prometheus_client.Metric`: at most one typed payload is set in a
well-formed message, but the wire format allows any combination, so each
payload is an independent `Option`. -/
structure Metric where
  label : List LabelPair
  counter : Option Counter
  gauge : Option Gauge
  untyped : Option Untyped
  summary : Option Summary
  histogram : Option Histogram

/-- Go chain `m.GetCounter().GetValue()`: `nil` message or `nil` field
both yield `0.0`. -/
def Metric.getCounterValue (m : Metric) : Float :=
  match m.counter with
  | none => 0.0
  | some c => c.value.getD 0.0

/-- Go chain `m.GetGauge().GetValue()`. -/
def Metric.getGaugeValue (m : Metric) : Float :=
  match m.gauge with
  | none => 0.0
  | some g => g.value.getD 0.0

/-- Go chain `m.GetUntyped().GetValue()`. -/
def Metric.getUntypedValue (m : Metric) : Float :=
  match m.untyped with
  | none => 0.0
  | some u => u.value.getD 0.0

/-- Go chain `m.GetSummary().GetSampleSum()`. -/
def Metric.getSummarySampleSum (m : Metric) : Float :=
  match m.summary with
  | none => 0.0
  | some s => s.sampleSum.getD 0.0

/-- Go chain `m.GetHistogram().GetSampleSum()`. -/
def Metric.getHistogramSampleSum (m : Metric) : Float :=
  match m.histogram with
  | none => 0.0
  | some h => h.sampleSum.getD 0.0

/-- `io_prometheus_client.MetricType` is an open proto enum; its wire
representation is an integer, so unknown values are representable. -/
def MetricType_COUNTER : Int := 0

/-- `MetricType_GAUGE` enum value. -/
def MetricType_GAUGE : Int := 1

/-- `MetricType_SUMMARY` enum value. -/
def MetricType_SUMMARY : Int := 2

/-- `MetricType_UNTYPED` enum value. -/
def MetricType_UNTYPED : Int := 3

/-- `MetricType_HISTOGRAM` enum value. -/
def MetricType_HISTOGRAM : Int := 4

/-- `io_prometheus_client.MetricFamily`.  The program dereferences
`*mf.Type` unconditionally, so the embedded `type` is the dereferenced
enum value. -/
structure MetricFamily where
  name : Option String
  type : Int
  metric : List Metric

/-- Go getter `MetricFamily.GetName`. -/
def MetricFamily.getName (mf : MetricFamily) : String := mf.name.getD ""

/-- `prompb.Label` (proto3: plain strings). -/
structure Label where
  name : String
  value : String

/-- `prompb.Sample`. -/
structure Sample where
  value : Float
  timestamp : Int

/-- `prompb.TimeSeries` (only the fields the program sets). -/
structure TimeSeries where
  labels : List Label
  samples : List Sample

/-- `prompb.WriteRequest` (only the `Timeseries` field is set). -/
structure WriteRequest where
  timeseries : List TimeSeries

/-- The `switch *mf.Type` dispatch of `createSnappyWithMetricFamily`
(lines 53–67): the five recognized cases extract a scalar, the `default`
case is `log.Fatalf`, embedded as `none`. -/
def extractValue (ty : Int) (m : Metric) : Option Float :=
  if ty = MetricType_COUNTER then some m.getCounterValue
  else if ty = MetricType_GAUGE then some m.getGaugeValue
  else if ty = MetricType_UNTYPED then some m.getUntypedValue
  else if ty = MetricType_SUMMARY then some m.getSummarySampleSum
  else if ty = MetricType_HISTOGRAM then some m.getHistogramSampleSum
  else none

/-- The label slice built at lines 41–49: the synthetic `__name__`
label first, then the metric's own labels in order. -/
def metricLabels (mf : MetricFamily) (m : Metric) : List Label :=
  { name := "__name__", value := mf.getName } ::
    m.label.map (fun lp => { name := lp.getName, value := lp.getValue })

/-- The inner `for _, m := range mf.Metric` loop: one `TimeSeries` per
metric, fatal (`none`) on the first metric whose family type misses the
dispatch table. -/
def buildFamilySeries (tStamp : Int) (mf : MetricFamily) : List Metric → Option (List TimeSeries)
  | [] => some []
  | m :: ms =>
    match extractValue mf.type m with
    | none => none
    | some v =>
      (buildFamilySeries tStamp mf ms).map
        (fun rest => { labels := metricLabels mf m,
                       samples := [{ value := v, timestamp := tStamp }] } :: rest)

/-- The outer `for _, mf := range mfs` loop, appending each family's
series in order. -/
def buildAllSeries (tStamp : Int) : List MetricFamily → Option (List TimeSeries)
  | [] => some []
  | mf :: mfs =>
    match buildFamilySeries tStamp mf mf.metric with
    | none => none
    | some ts1 => (buildAllSeries tStamp mfs).map (fun rest => ts1 ++ rest)

/-- `createSnappyWithMetricFamily` (lines 35–83).  `tStamp` embeds the
single capture `time.Now().UnixNano() / int64(time.Millisecond)` taken
before the loops run.  The Go function returns
`(*prompb.WriteRequest, error)` and its only failure mode is the
process-terminating `log.Fatalf` in the dispatch `default`; on every
return path the error result is literally `nil`, embedded as `none` in
the second component. -/
def createSnappyWithMetricFamily (mfs : List MetricFamily) (tStamp : Int) :
    Option (WriteRequest × Option String) :=
  (buildAllSeries tStamp mfs).map (fun ts => ({ timeseries := ts }, none))

/-- The `TimeSeries` the loop body constructs for one metric on the
success path, with the extracted value written through
`Option.getD` (the `value := 0.0` initialisation of line 52). -/
def seriesForMetric (tStamp : Int) (mf : MetricFamily) (m : Metric) : TimeSeries :=
  { labels := metricLabels mf m,
    samples := [{ value := (extractValue mf.type m).getD 0.0, timestamp := tStamp }] }

/-- Whether an enum value hits one of the five cases of the dispatch
switch. -/
def recognizedType (ty : Int) : Bool :=
  decide (ty = MetricType_COUNTER) || decide (ty = MetricType_GAUGE) ||
  decide (ty = MetricType_UNTYPED) || decide (ty = MetricType_SUMMARY) ||
  decide (ty = MetricType_HISTOGRAM)

/-- Whether the typed payload selected by the family's declared type is
absent from the metric (`nil` pointer in Go). -/
def typedPayloadAbsent (ty : Int) (m : Metric) : Bool :=
  if ty = MetricType_COUNTER then m.counter.isNone
  else if ty = MetricType_GAUGE then m.gauge.isNone
  else if ty = MetricType_UNTYPED then m.untyped.isNone
  else if ty = MetricType_SUMMARY then m.summary.isNone
  else if ty = MetricType_HISTOGRAM then m.histogram.isNone
  else false

/-- The HTTP request as assembled by `sendToRemoteWrite` (lines 18–24):
method, URL, the two fixed headers, and the compressed payload as
body. -/
structure HttpRequest where
  method : String
  url : String
  headers : List (String × String)
  body : List Nat

/-- The response fields `RemoteWrite` inspects: `StatusCode` and the
textual `Status`. -/
structure HttpResponse where
  statusCode : Int
  status : String

/-- `sendToRemoteWrite` (lines 17–33).  `newRequestOk` embeds whether
`http.NewRequest` accepts the URL (library behaviour, external to this
code); `doRequest` embeds the network round trip `client.Do`, `none`
meaning a transport error.  The result keeps, for the theorems, the
request that was handed to the network (`none` when `http.NewRequest`
failed and nothing was sent) next to the Go return value
`(*http.Response, error)` (its error case embedded as `none`). -/
def sendToRemoteWrite (newRequestOk : String → Bool)
    (doRequest : HttpRequest → Option HttpResponse)
    (data : List Nat) (remoteWriteURL : String) :
    Option HttpRequest × Option HttpResponse :=
  if newRequestOk remoteWriteURL then
    let req : HttpRequest :=
      { method := "POST"
        url := remoteWriteURL
        headers := [("Content-Encoding", "snappy"), ("Content-Type", "application/x-protobuf")]
        body := data }
    match doRequest req with
    | none => (some req, none)
    | some resp => (some req, some resp)
  else (none, none)

/-- Observable actions of the status-check epilogue of `RemoteWrite`
(lines 113–119), in program order. -/
inductive RespAction where
  | closeBody
  | fatalLog (status : String)
  | logSuccess

/-- Outcome of one iteration of the `RemoteWrite` loop.  Every `fatal…`
constructor is a `log.Fatalf` call, i.e. process termination. -/
inductive TickOutcome where
  | fatalGather
  | fatalBuild
  | fatalBuildErr
  | fatalMarshal
  | fatalSend
  | fatalStatus (status : String)
  | ok

/-- Lines 113–119 of `RemoteWrite`: compare `resp.StatusCode` with
`http.StatusOK` (= 200); on mismatch close the body then `log.Fatalf`,
otherwise close the body and log success.  The action list records the
order of the observable steps. -/
def handleResponse (resp : HttpResponse) : List RespAction × TickOutcome :=
  if resp.statusCode ≠ 200 then
    ([RespAction.closeBody, RespAction.fatalLog resp.status], TickOutcome.fatalStatus resp.status)
  else
    ([RespAction.closeBody, RespAction.logSuccess], TickOutcome.ok)

/-- Trace of one loop iteration: the request handed to the network (if
any) and the outcome. -/
structure TickTrace where
  sentRequest : Option HttpRequest
  outcome : TickOutcome

/-- One iteration of the `for range ticker.C` loop of `RemoteWrite`
(lines 89–121).  External collaborators are parameters: `marshal` embeds
`proto.Marshal` (`none` = encoding error), `snappyEncode` embeds
`snappy.Encode`, `newRequestOk` and `doRequest` embed the HTTP library,
`gathered` embeds the result of `prometheus.DefaultGatherer.Gather()`
(`none` = gather error), and `tStamp` the timestamp captured inside
`createSnappyWithMetricFamily`. -/
def remoteWriteTick (marshal : WriteRequest → Option (List Nat))
    (snappyEncode : List Nat → List Nat)
    (newRequestOk : String → Bool) (doRequest : HttpRequest → Option HttpResponse)
    (remoteWriteURL : String) (gathered : Option (List MetricFamily)) (tStamp : Int) :
    TickTrace :=
  match gathered with
  | none => { sentRequest := none, outcome := TickOutcome.fatalGather }
  | some m =>
    match createSnappyWithMetricFamily m tStamp with
    | none => { sentRequest := none, outcome := TickOutcome.fatalBuild }
    | some (wr, err) =>
      if err.isSome then { sentRequest := none, outcome := TickOutcome.fatalBuildErr }
      else
        match marshal wr with
        | none => { sentRequest := none, outcome := TickOutcome.fatalMarshal }
        | some data =>
          let buf := snappyEncode data
          match sendToRemoteWrite newRequestOk doRequest buf remoteWriteURL with
          | (reqOpt, none) => { sentRequest := reqOpt, outcome := TickOutcome.fatalSend }
          | (reqOpt, some resp) => { sentRequest := reqOpt, outcome := (handleResponse resp).2 }

/-- Fixture for C1: a counter metric with value `1.5` and no labels. -/
def c1Metric1 : Metric :=
  { label := [], counter := some { value := some 1.5 }, gauge := none,
    untyped := none, summary := none, histogram := none }

/-- Fixture for C1: a gauge metric with value `2.5` and one label. -/
def c1Metric2 : Metric :=
  { label := [{ name := some "k", value := some "v" }], counter := none,
    gauge := some { value := some 2.5 }, untyped := none, summary := none,
    histogram := none }

/-- Fixture for C1: a two-family snapshot. -/
def c1Snapshot : List MetricFamily :=
  [{ name := some "a", type := MetricType_COUNTER, metric := [c1Metric1] },
   { name := some "b", type := MetricType_GAUGE, metric := [c1Metric2] }]

/-- Fixture for C1: the write request `c1Snapshot` converts to at
timestamp 5. -/
def c1Request : WriteRequest :=
  { timeseries :=
      [{ labels := [{ name := "__name__", value := "a" }],
         samples := [{ value := 1.5, timestamp := 5 }] },
       { labels := [{ name := "__name__", value := "b" }, { name := "k", value := "v" }],
         samples := [{ value := 2.5, timestamp := 5 }] }] }

/-- Fixture for C2: a summary metric with sample sum `3.5`. -/
def c2Metric : Metric :=
  { label := [], counter := none, gauge := none, untyped := none,
    summary := some { sampleSum := some 3.5 }, histogram := none }

/-- Fixture for C2: a one-metric summary family. -/
def c2Family : MetricFamily :=
  { name := some "s", type := MetricType_SUMMARY, metric := [c2Metric] }

/-- Fixture for C2: the write request `[c2Family]` converts to at
timestamp 9. -/
def c2Request : WriteRequest :=
  { timeseries := [{ labels := [{ name := "__name__", value := "s" }],
                     samples := [{ value := 3.5, timestamp := 9 }] }] }

/-- Fixture for C3: a labeled histogram metric with sample sum `4.5`. -/
def c3Metric : Metric :=
  { label := [{ name := some "h", value := some "x" }], counter := none,
    gauge := none, untyped := none, summary := none,
    histogram := some { sampleSum := some 4.5 } }

/-- Fixture for C3: a one-metric histogram family. -/
def c3Family : MetricFamily :=
  { name := some "hist", type := MetricType_HISTOGRAM, metric := [c3Metric] }

/-- Fixture for C3: the write request `[c3Family]` converts to at
timestamp 2. -/
def c3Request : WriteRequest :=
  { timeseries :=
      [{ labels := [{ name := "__name__", value := "hist" }, { name := "h", value := "x" }],
         samples := [{ value := 4.5, timestamp := 2 }] }] }

/-- Fixture for C4: an untyped metric with value `6.5`. -/
def c4Metric : Metric :=
  { label := [], counter := none, gauge := none,
    untyped := some { value := some 6.5 }, summary := none, histogram := none }

/-- Fixture for C4: a one-metric untyped family. -/
def c4Family : MetricFamily :=
  { name := some "u", type := MetricType_UNTYPED, metric := [c4Metric] }

/-- Fixture for C4: the write request `[c4Family]` converts to at
timestamp 11. -/
def c4Request : WriteRequest :=
  { timeseries := [{ labels := [{ name := "__name__", value := "u" }],
                     samples := [{ value := 6.5, timestamp := 11 }] }] }

/-- Fixture for C5: a metric with no typed payload at all. -/
def c5Metric : Metric :=
  { label := [], counter := none, gauge := none, untyped := none,
    summary := none, histogram := none }

/-- Fixture for C5: a family with the unrecognized type value 99 and one
metric. -/
def c5Family : MetricFamily :=
  { name := some "bad", type := 99, metric := [c5Metric] }

/-- Fixture for C7: the request built for payload `[7]` and URL
`http://example.com/w`. -/
def c7Request : HttpRequest :=
  { method := "POST", url := "http://example.com/w",
    headers := [("Content-Encoding", "snappy"), ("Content-Type", "application/x-protobuf")],
    body := [7] }

/-- Fixture for C8: a gauge family with zero metrics. -/
def c8Family : MetricFamily :=
  { name := some "e", type := MetricType_GAUGE, metric := [] }

/-- Fixture for C8: the request built for the serialized-then-compressed
empty write request (marshal returning `[0]`, identity compression). -/
def c8Request : HttpRequest :=
  { method := "POST", url := "http://example.com/w8",
    headers := [("Content-Encoding", "snappy"), ("Content-Type", "application/x-protobuf")],
    body := [0] }

/-- Fixture for C10: a metric with no typed payload. -/
def c10Metric : Metric :=
  { label := [], counter := none, gauge := none, untyped := none,
    summary := none, histogram := none }

/-- Fixture for C10: a counter family whose metric has no counter
payload. -/
def c10Family : MetricFamily :=
  { name := some "c", type := MetricType_COUNTER, metric := [c10Metric] }

/-- Success of the dispatch switch coincides with the type being one of
the five recognized enum values. -/
theorem extractValue_isSome_iff (ty : Int) (m : Metric) :
    (extractValue ty m).isSome = recognizedType ty := by
  unfold extractValue recognizedType
  split_ifs <;> simp_all

/-- On the success path the constructed series is `seriesForMetric`. -/
theorem seriesForMetric_of_extract (tStamp : Int) (mf : MetricFamily) (m : Metric) (v : Float)
    (h : extractValue mf.type m = some v) :
    seriesForMetric tStamp mf m =
      { labels := metricLabels mf m, samples := [{ value := v, timestamp := tStamp }] } := by
  simp [seriesForMetric, h]

/-- A successful inner loop yields exactly the per-metric series, in
metric order. -/
theorem buildFamilySeries_eq_some (tStamp : Int) (mf : MetricFamily) :
    ∀ (ms : List Metric) (ts : List TimeSeries),
      buildFamilySeries tStamp mf ms = some ts →
      ts = ms.map (seriesForMetric tStamp mf) := by
  intro ms
  induction ms with
  | nil =>
    intro ts h
    simp only [buildFamilySeries, Option.some.injEq] at h
    simp [← h]
  | cons m ms ih =>
    intro ts h
    unfold buildFamilySeries at h
    cases hx : extractValue mf.type m with
    | none => rw [hx] at h; cases h
    | some v =>
      rw [hx] at h
      cases hr : buildFamilySeries tStamp mf ms with
      | none => rw [hr] at h; cases h
      | some rest =>
        rw [hr] at h
        simp only [Option.map_some', Option.some.injEq] at h
        subst h
        rw [List.map_cons, ← ih rest hr, seriesForMetric_of_extract tStamp mf m v hx]

/-- A successful outer loop yields the concatenation, in family order,
of the per-metric series of each family. -/
theorem buildAllSeries_eq_some (tStamp : Int) :
    ∀ (mfs : List MetricFamily) (ts : List TimeSeries),
      buildAllSeries tStamp mfs = some ts →
      ts = mfs.flatMap (fun mf => mf.metric.map (seriesForMetric tStamp mf)) := by
  intro mfs
  induction mfs with
  | nil =>
    intro ts h
    simp only [buildAllSeries, Option.some.injEq] at h
    simp [← h]
  | cons mf mfs ih =>
    intro ts h
    unfold buildAllSeries at h
    cases h1 : buildFamilySeries tStamp mf mf.metric with
    | none => rw [h1] at h; cases h
    | some ts1 =>
      rw [h1] at h
      cases h2 : buildAllSeries tStamp mfs with
      | none => rw [h2] at h; cases h
      | some rest =>
        rw [h2] at h
        simp only [Option.map_some', Option.some.injEq] at h
        subst h
        rw [List.flatMap_cons, ← ih rest h2, ← buildFamilySeries_eq_some tStamp mf mf.metric ts1 h1]

/-- Characterisation of a successful `createSnappyWithMetricFamily`
call: the produced series list is the order-preserving flattening, and
the error result is `nil`. -/
theorem createSnappy_eq_some (mfs : List MetricFamily) (tStamp : Int)
    (wr : WriteRequest) (err : Option String)
    (h : createSnappyWithMetricFamily mfs tStamp = some (wr, err)) :
    wr.timeseries = mfs.flatMap (fun mf => mf.metric.map (seriesForMetric tStamp mf)) ∧
    err = none := by
  unfold createSnappyWithMetricFamily at h
  cases hb : buildAllSeries tStamp mfs with
  | none => rw [hb] at h; cases h
  | some ts =>
    rw [hb, Option.map_some'] at h
    injection h with h
    have h1 : wr = { timeseries := ts } := congrArg Prod.fst h.symm
    have h2 : err = (none : Option String) := congrArg Prod.snd h.symm
    subst h1
    exact ⟨buildAllSeries_eq_some tStamp mfs ts hb, h2⟩

/-- An unrecognized enum value falls through to the fatal `default`
case. -/
theorem extractValue_eq_none (ty : Int) (m : Metric) (h : recognizedType ty = false) :
    extractValue ty m = none := by
  have h2 := extractValue_isSome_iff ty m
  rw [h] at h2
  exact Option.not_isSome_iff_eq_none.mp (by simp [h2])

/-- A family with an unrecognized type and at least one metric makes the
inner loop hit the fatal `default` case. -/
theorem buildFamilySeries_eq_none (tStamp : Int) (mf : MetricFamily)
    (hty : recognizedType mf.type = false) (hne : mf.metric ≠ []) :
    buildFamilySeries tStamp mf mf.metric = none := by
  cases hm : mf.metric with
  | nil => exact absurd hm hne
  | cons m ms =>
    unfold buildFamilySeries
    rw [extractValue_eq_none mf.type m hty]

/-- The outer loop aborts (fatally) as soon as any family aborts. -/
theorem buildAllSeries_eq_none (tStamp : Int) :
    ∀ (mfs : List MetricFamily), (∃ mf ∈ mfs, recognizedType mf.type = false ∧ mf.metric ≠ []) →
      buildAllSeries tStamp mfs = none := by
  intro mfs
  induction mfs with
  | nil => intro h; obtain ⟨mf, hmf, -⟩ := h; cases hmf
  | cons mf0 mfs ih =>
    intro h
    obtain ⟨mf, hmf, hty, hne⟩ := h
    unfold buildAllSeries
    rcases List.mem_cons.mp hmf with heq | hmem
    · subst heq
      rw [buildFamilySeries_eq_none tStamp mf hty hne]
    · cases h1 : buildFamilySeries tStamp mf0 mf0.metric with
      | none => rfl
      | some ts1 => rw [ih ⟨mf, hmem, hty, hne⟩]; rfl

/-- C1: for every snapshot with `N` total `Metric` instances summed
across all families, `createSnappyWithMetricFamily` produces a
`WriteRequest` with exactly `N` `TimeSeries`; the output is the
order-preserving flattening that yields one series per metric, keeping
outer family order and inner metric order. -/
theorem spec_c1_series_count_and_order (mfs : List MetricFamily) (tStamp : Int)
    (wr : WriteRequest) (err : Option String)
    (h : createSnappyWithMetricFamily mfs tStamp = some (wr, err)) :
    wr.timeseries.length = (mfs.map (fun mf => mf.metric.length)).sum ∧
    wr.timeseries = mfs.flatMap (fun mf => mf.metric.map (seriesForMetric tStamp mf)) := by
  obtain ⟨hts, -⟩ := createSnappy_eq_some mfs tStamp wr err h
  refine ⟨?_, hts⟩
  rw [hts, List.length_flatMap]
  simp [Function.comp_def]

/-- C1 witness: a two-family snapshot with one counter metric and one
gauge metric yields exactly two series in snapshot order. -/
theorem spec_c1_witness :
    createSnappyWithMetricFamily c1Snapshot 5 = some (c1Request, none) ∧
    c1Request.timeseries.length = (c1Snapshot.map (fun mf => mf.metric.length)).sum ∧
    c1Request.timeseries = c1Snapshot.flatMap (fun mf => mf.metric.map (seriesForMetric 5 mf)) :=
  ⟨rfl, (spec_c1_series_count_and_order c1Snapshot 5 c1Request none rfl).1,
    (spec_c1_series_count_and_order c1Snapshot 5 c1Request none rfl).2⟩

/-- C2: every metric of every family of a successfully converted
snapshot contributes its `seriesForMetric` to the output, and that
series' sample value follows the fixed dispatch table: counter value,
gauge value, untyped value, summary sample sum, histogram sample sum,
according to the family's declared type. -/
theorem spec_c2_dispatch_values (mfs : List MetricFamily) (tStamp : Int)
    (wr : WriteRequest) (err : Option String)
    (h : createSnappyWithMetricFamily mfs tStamp = some (wr, err))
    (mf : MetricFamily) (hmf : mf ∈ mfs) (m : Metric) (hm : m ∈ mf.metric) :
    seriesForMetric tStamp mf m ∈ wr.timeseries ∧
    (mf.type = MetricType_COUNTER →
      (seriesForMetric tStamp mf m).samples.map Sample.value = [m.getCounterValue]) ∧
    (mf.type = MetricType_GAUGE →
      (seriesForMetric tStamp mf m).samples.map Sample.value = [m.getGaugeValue]) ∧
    (mf.type = MetricType_UNTYPED →
      (seriesForMetric tStamp mf m).samples.map Sample.value = [m.getUntypedValue]) ∧
    (mf.type = MetricType_SUMMARY →
      (seriesForMetric tStamp mf m).samples.map Sample.value = [m.getSummarySampleSum]) ∧
    (mf.type = MetricType_HISTOGRAM →
      (seriesForMetric tStamp mf m).samples.map Sample.value = [m.getHistogramSampleSum]) := by
  obtain ⟨hts, -⟩ := createSnappy_eq_some mfs tStamp wr err h
  refine ⟨?_, ?_, ?_, ?_, ?_, ?_⟩
  · rw [hts]
    exact List.mem_flatMap.mpr ⟨mf, hmf, List.mem_map.mpr ⟨m, hm, rfl⟩⟩
  all_goals
    intro hty
    simp [seriesForMetric, extractValue, hty, MetricType_COUNTER, MetricType_GAUGE,
      MetricType_UNTYPED, MetricType_SUMMARY, MetricType_HISTOGRAM]

/-- C2 witness: a summary family's metric yields a sample value equal to
its sample sum. -/
theorem spec_c2_witness :
    createSnappyWithMetricFamily [c2Family] 9 = some (c2Request, none) ∧
    seriesForMetric 9 c2Family c2Metric ∈ c2Request.timeseries ∧
    (seriesForMetric 9 c2Family c2Metric).samples.map Sample.value =
      [c2Metric.getSummarySampleSum] :=
  ⟨rfl,
    (spec_c2_dispatch_values [c2Family] 9 c2Request none rfl c2Family (by simp)
      c2Metric (by simp [c2Family])).1,
    (spec_c2_dispatch_values [c2Family] 9 c2Request none rfl c2Family (by simp)
      c2Metric (by simp [c2Family])).2.2.2.2.1 rfl⟩

/-- C3: every series of a successfully converted snapshot has a
non-empty label list whose head is the synthetic `__name__` label valued
with the owning family's name, followed by exactly the metric's own
labels in their original order. -/
theorem spec_c3_label_layout (mfs : List MetricFamily) (tStamp : Int)
    (wr : WriteRequest) (err : Option String)
    (h : createSnappyWithMetricFamily mfs tStamp = some (wr, err))
    (ts : TimeSeries) (hts : ts ∈ wr.timeseries) :
    ts.labels ≠ [] ∧
    ∃ mf ∈ mfs, ∃ m ∈ mf.metric,
      ts.labels = { name := "__name__", value := mf.getName } ::
        m.label.map (fun lp => { name := lp.getName, value := lp.getValue }) := by
  obtain ⟨heq, -⟩ := createSnappy_eq_some mfs tStamp wr err h
  rw [heq, List.mem_flatMap] at hts
  obtain ⟨mf, hmf, hmem⟩ := hts
  rw [List.mem_map] at hmem
  obtain ⟨m, hm, rfl⟩ := hmem
  exact ⟨by simp [seriesForMetric, metricLabels], mf, hmf, m, hm,
    by simp [seriesForMetric, metricLabels]⟩

/-- C3 witness: a histogram family with one labeled metric yields the
synthetic name label first, then the metric's own label. -/
theorem spec_c3_witness :
    createSnappyWithMetricFamily [c3Family] 2 = some (c3Request, none) ∧
    ({ labels := [{ name := "__name__", value := "hist" }, { name := "h", value := "x" }],
       samples := [{ value := 4.5, timestamp := 2 }] } : TimeSeries).labels ≠ [] ∧
    (∃ mf ∈ [c3Family], ∃ m ∈ mf.metric,
      ({ labels := [{ name := "__name__", value := "hist" }, { name := "h", value := "x" }],
         samples := [{ value := 4.5, timestamp := 2 }] } : TimeSeries).labels =
        { name := "__name__", value := mf.getName } ::
          m.label.map (fun lp => { name := lp.getName, value := lp.getValue })) :=
  ⟨rfl,
    (spec_c3_label_layout [c3Family] 2 c3Request none rfl _ (by simp [c3Request])).1,
    (spec_c3_label_layout [c3Family] 2 c3Request none rfl _ (by simp [c3Request])).2⟩

/-- C4: in a successfully built `WriteRequest` every series carries
exactly one sample, and every sample's timestamp is the single capture
`tStamp` taken before the loops run. -/
theorem spec_c4_one_sample_shared_timestamp (mfs : List MetricFamily) (tStamp : Int)
    (wr : WriteRequest) (err : Option String)
    (h : createSnappyWithMetricFamily mfs tStamp = some (wr, err))
    (ts : TimeSeries) (hts : ts ∈ wr.timeseries) :
    ts.samples.length = 1 ∧ ∀ s ∈ ts.samples, s.timestamp = tStamp := by
  obtain ⟨heq, -⟩ := createSnappy_eq_some mfs tStamp wr err h
  rw [heq, List.mem_flatMap] at hts
  obtain ⟨mf, hmf, hmem⟩ := hts
  rw [List.mem_map] at hmem
  obtain ⟨m, hm, rfl⟩ := hmem
  refine ⟨rfl, ?_⟩
  intro s hs
  simp only [seriesForMetric, List.mem_singleton] at hs
  rw [hs]

/-- C4 witness: the untyped-family snapshot yields one sample with the
captured timestamp 11. -/
theorem spec_c4_witness :
    createSnappyWithMetricFamily [c4Family] 11 = some (c4Request, none) ∧
    ({ labels := [{ name := "__name__", value := "u" }],
       samples := [{ value := 6.5, timestamp := 11 }] } : TimeSeries).samples.length = 1 ∧
    ∀ s ∈ ({ labels := [{ name := "__name__", value := "u" }],
             samples := [{ value := 6.5, timestamp := 11 }] } : TimeSeries).samples,
      s.timestamp = 11 :=
  ⟨rfl,
    (spec_c4_one_sample_shared_timestamp [c4Family] 11 c4Request none rfl _ (by simp [c4Request])).1,
    (spec_c4_one_sample_shared_timestamp [c4Family] 11 c4Request none rfl _ (by simp [c4Request])).2⟩

/-- C5 counterexample: a snapshot whose only family declares the
unrecognized type value 99 but contains zero metrics does NOT abort the
pipeline: the builder succeeds (the dispatch switch sits inside the
per-metric loop, which never runs), and the tick still hands a request
to the network. -/
theorem spec_c5_counterexample :
    createSnappyWithMetricFamily [{ name := some "bad", type := 99, metric := [] }] 3 =
      some ({ timeseries := [] }, none) ∧
    recognizedType 99 = false ∧
    (remoteWriteTick (fun _ => some []) (fun b => b) (fun _ => true)
        (fun _ => some { statusCode := 200, status := "200 OK" })
        "http://example.com/write" (some [{ name := some "bad", type := 99, metric := [] }])
        3).sentRequest =
      some { method := "POST", url := "http://example.com/write",
             headers := [("Content-Encoding", "snappy"), ("Content-Type", "application/x-protobuf")],
             body := [] } :=
  ⟨rfl, rfl, rfl⟩

/-- C5 (amended): if some family that contains at least one metric
declares a type outside the recognized dispatch table, the builder
terminates fatally and the tick sends nothing: no request reaches the
network and no partial output is produced. -/
theorem spec_c5_unknown_type_fatal (mfs : List MetricFamily) (tStamp : Int)
    (h : ∃ mf ∈ mfs, recognizedType mf.type = false ∧ mf.metric ≠ []) :
    createSnappyWithMetricFamily mfs tStamp = none ∧
    ∀ (marshal : WriteRequest → Option (List Nat)) (snappyEncode : List Nat → List Nat)
      (newRequestOk : String → Bool) (doRequest : HttpRequest → Option HttpResponse)
      (url : String),
      remoteWriteTick marshal snappyEncode newRequestOk doRequest url (some mfs) tStamp =
        { sentRequest := none, outcome := TickOutcome.fatalBuild } := by
  have hb := buildAllSeries_eq_none tStamp mfs h
  have hc : createSnappyWithMetricFamily mfs tStamp = none := by
    unfold createSnappyWithMetricFamily
    rw [hb]
    rfl
  refine ⟨hc, ?_⟩
  intro marshal snappyEncode newRequestOk doRequest url
  simp [remoteWriteTick, hc]

/-- C5 witness (for the amended theorem): one family of type 99 with one
metric aborts the build and the tick sends nothing. -/
theorem spec_c5_witness :
    (∃ mf ∈ [c5Family], recognizedType mf.type = false ∧ mf.metric ≠ []) ∧
    createSnappyWithMetricFamily [c5Family] 3 = none ∧
    remoteWriteTick (fun _ => some []) (fun b => b) (fun _ => true) (fun _ => none)
        "http://example.com/write" (some [c5Family]) 3 =
      { sentRequest := none, outcome := TickOutcome.fatalBuild } := by
  have hex : ∃ mf ∈ [c5Family], recognizedType mf.type = false ∧ mf.metric ≠ [] :=
    ⟨c5Family, by simp, rfl, by simp [c5Family]⟩
  exact ⟨hex, (spec_c5_unknown_type_fatal [c5Family] 3 hex).1,
    (spec_c5_unknown_type_fatal [c5Family] 3 hex).2 _ _ _ _ _⟩

/-- C6: the status check of `RemoteWrite` succeeds exactly when the
response status code is the canonical OK value 200; on the OK path the
body is closed and success logged, on any other status the body is
closed first and only then the fatal failure is signalled. -/
theorem spec_c6_status_check (resp : HttpResponse) :
    ((handleResponse resp).2 = TickOutcome.ok ↔ resp.statusCode = 200) ∧
    (resp.statusCode = 200 →
      handleResponse resp = ([RespAction.closeBody, RespAction.logSuccess], TickOutcome.ok)) ∧
    (resp.statusCode ≠ 200 →
      handleResponse resp =
        ([RespAction.closeBody, RespAction.fatalLog resp.status],
          TickOutcome.fatalStatus resp.status)) := by
  unfold handleResponse
  by_cases h : resp.statusCode = 200 <;> simp [h]

/-- C6 witness: status 200 succeeds after closing the body; status 503
closes the body and then signals the fatal failure. -/
theorem spec_c6_witness :
    handleResponse { statusCode := 200, status := "200 OK" } =
      ([RespAction.closeBody, RespAction.logSuccess], TickOutcome.ok) ∧
    handleResponse { statusCode := 503, status := "503 Service Unavailable" } =
      ([RespAction.closeBody, RespAction.fatalLog "503 Service Unavailable"],
        TickOutcome.fatalStatus "503 Service Unavailable") :=
  ⟨(spec_c6_status_check { statusCode := 200, status := "200 OK" }).2.1 rfl,
    (spec_c6_status_check { statusCode := 503, status := "503 Service Unavailable" }).2.2
      (by decide)⟩

/-- C7: every request `sendToRemoteWrite` constructs is a POST to the
configured URL with exactly the headers `Content-Encoding: snappy` and
`Content-Type: application/x-protobuf` and the compressed payload as
body. -/
theorem spec_c7_request_shape (newRequestOk : String → Bool)
    (doRequest : HttpRequest → Option HttpResponse) (data : List Nat) (url : String)
    (req : HttpRequest)
    (h : (sendToRemoteWrite newRequestOk doRequest data url).1 = some req) :
    req.method = "POST" ∧ req.url = url ∧
    req.headers = [("Content-Encoding", "snappy"), ("Content-Type", "application/x-protobuf")] ∧
    req.body = data := by
  unfold sendToRemoteWrite at h
  by_cases hok : newRequestOk url
  · rw [if_pos hok] at h
    dsimp only at h
    cases hd : doRequest (HttpRequest.mk "POST" url [("Content-Encoding", "snappy"), ("Content-Type", "application/x-protobuf")] data) with
    | none =>
      rw [hd] at h
      injection h with h
      subst h
      exact ⟨rfl, rfl, rfl, rfl⟩
    | some r =>
      rw [hd] at h
      injection h with h
      subst h
      exact ⟨rfl, rfl, rfl, rfl⟩
  · rw [if_neg hok] at h
    cases h

/-- C7 witness: the request built for payload `[7]` has the fixed
method, URL, headers and body. -/
theorem spec_c7_witness :
    (sendToRemoteWrite (fun _ => true) (fun _ => none) [7] "http://example.com/w").1 =
      some c7Request ∧
    c7Request.method = "POST" ∧ c7Request.url = "http://example.com/w" ∧
    c7Request.headers =
      [("Content-Encoding", "snappy"), ("Content-Type", "application/x-protobuf")] ∧
    c7Request.body = [7] :=
  ⟨rfl, spec_c7_request_shape (fun _ => true) (fun _ => none) [7] "http://example.com/w"
    c7Request rfl⟩

/-- A snapshot whose families all have empty metric lists builds the
empty series list. -/
theorem buildAllSeries_empty (tStamp : Int) :
    ∀ (mfs : List MetricFamily), (∀ mf ∈ mfs, mf.metric = []) →
      buildAllSeries tStamp mfs = some [] := by
  intro mfs
  induction mfs with
  | nil => intro _; rfl
  | cons mf mfs ih =>
    intro h
    unfold buildAllSeries
    rw [h mf (List.mem_cons_self mf mfs), ih (fun x hx => h x (List.mem_cons_of_mem mf hx))]
    rfl

/-- C8: for the empty snapshot (no families, or only families with zero
metrics) the builder returns a `WriteRequest` with an empty series list,
and the tick still serializes, compresses and POSTs that empty envelope
instead of skipping: the sent request carries the compressed marshalled
empty envelope. -/
theorem spec_c8_empty_snapshot (mfs : List MetricFamily) (tStamp : Int)
    (hempty : ∀ mf ∈ mfs, mf.metric = [])
    (marshal : WriteRequest → Option (List Nat)) (bs : List Nat)
    (hmar : marshal { timeseries := [] } = some bs)
    (snappyEncode : List Nat → List Nat)
    (newRequestOk : String → Bool) (doRequest : HttpRequest → Option HttpResponse)
    (url : String) (hok : newRequestOk url = true) :
    createSnappyWithMetricFamily mfs tStamp = some ({ timeseries := [] }, none) ∧
    (remoteWriteTick marshal snappyEncode newRequestOk doRequest url (some mfs) tStamp).sentRequest =
      some (HttpRequest.mk "POST" url
        [("Content-Encoding", "snappy"), ("Content-Type", "application/x-protobuf")]
        (snappyEncode bs)) := by
  have hb := buildAllSeries_empty tStamp mfs hempty
  have hc : createSnappyWithMetricFamily mfs tStamp = some ({ timeseries := [] }, none) := by
    unfold createSnappyWithMetricFamily
    rw [hb]
    rfl
  refine ⟨hc, ?_⟩
  cases hdo : doRequest (HttpRequest.mk "POST" url [("Content-Encoding", "snappy"), ("Content-Type", "application/x-protobuf")] (snappyEncode bs)) with
  | none => simp [remoteWriteTick, hc, hmar, sendToRemoteWrite, hok, hdo]
  | some r => simp [remoteWriteTick, hc, hmar, sendToRemoteWrite, hok, hdo]

/-- C8 witness: a snapshot with one zero-metric gauge family is still
serialized, compressed and handed to the network as an empty envelope. -/
theorem spec_c8_witness :
    (∀ mf ∈ [c8Family], mf.metric = []) ∧
    createSnappyWithMetricFamily [c8Family] 6 = some ({ timeseries := [] }, none) ∧
    (remoteWriteTick (fun _ => some [0]) (fun b => b) (fun _ => true) (fun _ => none)
        "http://example.com/w8" (some [c8Family]) 6).sentRequest = some c8Request := by
  have hempty : ∀ mf ∈ [c8Family], mf.metric = [] := by simp [c8Family]
  have h := spec_c8_empty_snapshot [c8Family] 6 hempty (fun _ => some [0]) [0] rfl
    (fun b => b) (fun _ => true) (fun _ => none) "http://example.com/w8" rfl
  exact ⟨hempty, h.1, h.2⟩

/-- C9: `createSnappyWithMetricFamily` never returns a non-nil error:
whenever it returns at all, the error component is `none`, and as a
consequence the error-handling branch that follows its call in
`RemoteWrite` is unreachable — no tick ever ends in that branch's fatal
outcome. -/
theorem spec_c9_error_always_nil (mfs : List MetricFamily) (tStamp : Int)
    (r : WriteRequest × Option String)
    (h : createSnappyWithMetricFamily mfs tStamp = some r) :
    r.2 = none ∧
    ∀ (marshal : WriteRequest → Option (List Nat)) (snappyEncode : List Nat → List Nat)
      (newRequestOk : String → Bool) (doRequest : HttpRequest → Option HttpResponse)
      (url : String) (gathered : Option (List MetricFamily)) (t : Int),
      (remoteWriteTick marshal snappyEncode newRequestOk doRequest url gathered t).outcome ≠
        TickOutcome.fatalBuildErr := by
  constructor
  · obtain ⟨wr, err⟩ := r
    exact (createSnappy_eq_some mfs tStamp wr err h).2
  · intro marshal snappyEncode newRequestOk doRequest url gathered t
    cases gathered with
    | none => simp [remoteWriteTick]
    | some m =>
      cases hc : createSnappyWithMetricFamily m t with
      | none => simp [remoteWriteTick, hc]
      | some r2 =>
        obtain ⟨wr, err⟩ := r2
        obtain ⟨-, herr⟩ := createSnappy_eq_some m t wr err hc
        subst herr
        cases hm : marshal wr with
        | none => simp [remoteWriteTick, hc, hm]
        | some data =>
          cases hs : sendToRemoteWrite newRequestOk doRequest (snappyEncode data) url with
          | mk reqOpt respOpt =>
            cases respOpt with
            | none => simp [remoteWriteTick, hc, hm, hs]
            | some resp =>
              by_cases hst : resp.statusCode = 200
              · simp [remoteWriteTick, hc, hm, hs, handleResponse, hst]
              · simp [remoteWriteTick, hc, hm, hs, handleResponse, hst]

/-- C9 witness: on the empty snapshot the builder returns, its error
component is `nil`, and no tick reaches the unreachable branch. -/
theorem spec_c9_witness :
    createSnappyWithMetricFamily [] 1 = some ({ timeseries := [] }, none) ∧
    (({ timeseries := [] } : WriteRequest), (none : Option String)).2 = none ∧
    (remoteWriteTick (fun _ => none) (fun b => b) (fun _ => false) (fun _ => none)
        "u" (some []) 1).outcome ≠ TickOutcome.fatalBuildErr :=
  ⟨rfl, (spec_c9_error_always_nil [] 1 ({ timeseries := [] }, none) rfl).1,
    (spec_c9_error_always_nil [] 1 ({ timeseries := [] }, none) rfl).2
      (fun _ => none) (fun b => b) (fun _ => false) (fun _ => none) "u" (some []) 1⟩

/-- C10: a metric whose typed payload is absent even though the family
declares a recognized type does not make the builder fail: the value
extraction succeeds with `0.0`, a one-metric family of this shape
converts successfully, and the metric's series carries the single sample
`0.0`. -/
theorem spec_c10_absent_payload_zero (mf : MetricFamily) (m : Metric) (tStamp : Int)
    (hrec : recognizedType mf.type = true)
    (habs : typedPayloadAbsent mf.type m = true) :
    extractValue mf.type m = some 0.0 ∧
    createSnappyWithMetricFamily [{ name := mf.name, type := mf.type, metric := [m] }] tStamp =
      some ({ timeseries :=
        [seriesForMetric tStamp { name := mf.name, type := mf.type, metric := [m] } m] }, none) ∧
    (seriesForMetric tStamp mf m).samples = [{ value := 0.0, timestamp := tStamp }] := by
  have hrec2 : mf.type = MetricType_COUNTER ∨ mf.type = MetricType_GAUGE ∨
      mf.type = MetricType_UNTYPED ∨ mf.type = MetricType_SUMMARY ∨
      mf.type = MetricType_HISTOGRAM := by
    simpa [recognizedType, Bool.or_eq_true, decide_eq_true_eq, or_assoc] using hrec
  have hx : extractValue mf.type m = some 0.0 := by
    rcases hrec2 with hty | hty | hty | hty | hty
    · rw [hty] at habs ⊢
      simp only [typedPayloadAbsent, MetricType_COUNTER, MetricType_GAUGE, MetricType_UNTYPED,
        MetricType_SUMMARY, MetricType_HISTOGRAM] at habs
      norm_num [Option.isNone_iff_eq_none] at habs
      simp [extractValue, Metric.getCounterValue, habs, MetricType_COUNTER]
    · rw [hty] at habs ⊢
      simp only [typedPayloadAbsent, MetricType_COUNTER, MetricType_GAUGE, MetricType_UNTYPED,
        MetricType_SUMMARY, MetricType_HISTOGRAM] at habs
      norm_num [Option.isNone_iff_eq_none] at habs
      simp [extractValue, Metric.getGaugeValue, habs, MetricType_COUNTER, MetricType_GAUGE]
    · rw [hty] at habs ⊢
      simp only [typedPayloadAbsent, MetricType_COUNTER, MetricType_GAUGE, MetricType_UNTYPED,
        MetricType_SUMMARY, MetricType_HISTOGRAM] at habs
      norm_num [Option.isNone_iff_eq_none] at habs
      simp [extractValue, Metric.getUntypedValue, habs, MetricType_COUNTER, MetricType_GAUGE,
        MetricType_UNTYPED]
    · rw [hty] at habs ⊢
      simp only [typedPayloadAbsent, MetricType_COUNTER, MetricType_GAUGE, MetricType_UNTYPED,
        MetricType_SUMMARY, MetricType_HISTOGRAM] at habs
      norm_num [Option.isNone_iff_eq_none] at habs
      simp [extractValue, Metric.getSummarySampleSum, habs, MetricType_COUNTER, MetricType_GAUGE,
        MetricType_UNTYPED, MetricType_SUMMARY]
    · rw [hty] at habs ⊢
      simp only [typedPayloadAbsent, MetricType_COUNTER, MetricType_GAUGE, MetricType_UNTYPED,
        MetricType_SUMMARY, MetricType_HISTOGRAM] at habs
      norm_num [Option.isNone_iff_eq_none] at habs
      simp [extractValue, Metric.getHistogramSampleSum, habs, MetricType_COUNTER, MetricType_GAUGE,
        MetricType_UNTYPED, MetricType_SUMMARY, MetricType_HISTOGRAM]
  refine ⟨hx, ?_, by simp [seriesForMetric, hx]⟩
  simp [createSnappyWithMetricFamily, buildAllSeries, buildFamilySeries, hx, seriesForMetric]

/-- C10 witness: a counter family whose metric has no counter payload
yields a series whose single sample has value `0.0`. -/
theorem spec_c10_witness :
    recognizedType c10Family.type = true ∧
    typedPayloadAbsent c10Family.type c10Metric = true ∧
    extractValue c10Family.type c10Metric = some 0.0 ∧
    createSnappyWithMetricFamily
        [{ name := c10Family.name, type := c10Family.type, metric := [c10Metric] }] 4 =
      some ({ timeseries := [seriesForMetric 4 { name := c10Family.name, type := c10Family.type, metric := [c10Metric] } c10Metric] }, none) ∧
    (seriesForMetric 4 c10Family c10Metric).samples = [{ value := 0.0, timestamp := 4 }] :=
  ⟨rfl, rfl, (spec_c10_absent_payload_zero c10Family c10Metric 4 rfl rfl).1,
    (spec_c10_absent_payload_zero c10Family c10Metric 4 rfl rfl).2.1,
    (spec_c10_absent_payload_zero c10Family c10Metric 4 rfl rfl).2.2⟩
